import Mathlib

/-!
Shallow embedding of the Portal employee-management backend.

The embedded code is the employee lifecycle workflow:
`src/api/middleware/FuncionarioMiddleware.js` (request-shape validation),
`src/api/service/FuncionarioService.js` (business rules: role existence,
email / login-name uniqueness, login), and `src/api/dao/FuncionarioDAO.js`
(parameterized SQL over the `funcionario` / `cargo` tables, bcrypt hashing).

The database is embedded as an explicit state value (`DB`): the `funcionario`
table is a list of rows, the `cargo` table a list of rows, and the MySQL
auto-increment counter is `nextId`.  Each stateful operation takes the state
and returns the updated state.  External collaborators that are not part of
the repository (bcrypt, the MySQL pool, the JWT encoder, CargoDAO) are
modelled from the contracts the specification states for them; each such
definition carries a doc comment saying so.
-/

set_option autoImplicit false

namespace Portal

/-- A row of the `cargo` table (role: identifier plus display name). -/
structure CargoRow where
  idCargo : Nat
  nomeCargo : String
deriving DecidableEq, Repr

/-- A row of the `funcionario` table.  `cargoId` is the `Cargo_idCargo`
column; `senha` is the stored bcrypt hash. -/
structure FuncionarioRow where
  idFuncionario : Nat
  nomeFuncionario : String
  email : String
  usuario : String
  senha : String
  cargoId : Nat
deriving DecidableEq, Repr

/-- The database state: both tables plus the auto-increment counter that
MySQL would use for the next inserted `funcionario` row. -/
structure DB where
  funcionarios : List FuncionarioRow
  cargos : List CargoRow
  nextId : Nat
deriving DecidableEq, Repr

/-- Modelled from the spec: the Credential Hasher external collaborator
(bcrypt).  `bcrypt.hash(senha, 12)` is embedded as an injective one-way
tagging of the plaintext; the hash is never equal to the plaintext. -/
def bcryptHash (senha : String) : String := "$2b$12$" ++ senha

/-- Modelled from the spec: `bcrypt.compare(plain, hash)` succeeds exactly
when `hash` is the hash of `plain` (the comparison is done internally by
the hasher, not via string equality of plaintexts). -/
def bcryptCompare (plain hash : String) : Bool := bcryptHash plain == hash

/-- The uniform error payload of `ErrorResponse.js`:
`{ statusCode, title, detail: { message } }`. -/
structure ErrorResponse where
  statusCode : Nat
  title : String
  message : String
deriving DecidableEq, Repr

/-- A thrown JS value: either a structured `ErrorResponse` or a plain
`Error(message)` (the DAO throws the latter). -/
inductive Failure where
  | response (e : ErrorResponse)
  | jsError (message : String)
deriving DecidableEq, Repr

/-- A value compared against a table column by a `WHERE field = ?` query:
the columns are either integer-valued or string-valued. -/
inductive FieldVal where
  | str (s : String)
  | num (n : Nat)
deriving DecidableEq, Repr

/-- The allow-list of searchable columns in `FuncionarioDAO.findByField`. -/
def allowedFields : List String :=
  ["idFuncionario", "nomeFuncionario", "email", "usuario", "senha", "Cargo_idCargo"]

/-- Semantics of the parameterized predicate `WHERE field = ?` on one row of
the `funcionario` table. -/
def rowFieldEq (row : FuncionarioRow) (field : String) (value : FieldVal) : Bool :=
  match field with
  | "idFuncionario" => decide (value = FieldVal.num row.idFuncionario)
  | "nomeFuncionario" => decide (value = FieldVal.str row.nomeFuncionario)
  | "email" => decide (value = FieldVal.str row.email)
  | "usuario" => decide (value = FieldVal.str row.usuario)
  | "senha" => decide (value = FieldVal.str row.senha)
  | "Cargo_idCargo" => decide (value = FieldVal.num row.cargoId)
  | _ => false

/-- `FuncionarioDAO.findByField(field, value)`: rejects any column name
outside the allow-list with `Error("Campo inválido para busca: " + field)`
before building a query; for an allowed name it runs
`SELECT * FROM funcionario WHERE field = ?`. -/
def FuncionarioDAO.findByField (db : DB) (field : String) (value : FieldVal) :
    Except Failure (List FuncionarioRow) :=
  if field ∉ allowedFields then
    Except.error (Failure.jsError ("Campo inválido para busca: " ++ field))
  else
    Except.ok (db.funcionarios.filter (fun row => rowFieldEq row field value))

/-- `FuncionarioDAO.findById(id)`: delegates to `findByField` on the
`idFuncionario` column and returns `resultado[0] || null`. -/
def FuncionarioDAO.findById (db : DB) (idFuncionario : Nat) :
    Except Failure (Option FuncionarioRow) :=
  (FuncionarioDAO.findByField db ("idFuncionario") (FieldVal.num idFuncionario)).map
    (fun resultado => resultado.head?)

/-- Modelled from the spec: `CargoDAO.findById` (the repository file
`CargoDAO.js` is not among the sources; §4.2 of the spec only requires a
role lookup-by-id contract, returning the role or an absent value). -/
def CargoDAO.findById (db : DB) (idCargo : Nat) : Option CargoRow :=
  db.cargos.find? (fun c => c.idCargo == idCargo)

/-- The service-layer `Funcionario` object assembled by
`createFuncionario` (role reference flattened to its `idCargo`). -/
structure Funcionario where
  idFuncionario : Nat
  nomeFuncionario : String
  email : String
  usuario : String
  senha : String
  cargoId : Nat
deriving DecidableEq, Repr

/-- `FuncionarioDAO.create(obj)`: first overwrites `obj.senha` with
`bcrypt.hash(obj.senha, 12)` (a mutation of the object held by the caller, returned
here as the first component), then runs the parameterized INSERT; MySQL
assigns `insertId = nextId`.  The `if (!resultado.insertId) throw` guard is
kept: an `insertId` of `0` is falsy in JS. -/
def FuncionarioDAO.create (db : DB) (obj : Funcionario) :
    (Except Failure (Funcionario × Nat)) × DB :=
  let hashed : Funcionario := { obj with senha := bcryptHash obj.senha }
  let insertId := db.nextId
  let newRow : FuncionarioRow :=
    { idFuncionario := insertId, nomeFuncionario := hashed.nomeFuncionario,
      email := hashed.email, usuario := hashed.usuario, senha := hashed.senha,
      cargoId := hashed.cargoId }
  let db2 : DB :=
    { db with funcionarios := db.funcionarios ++ [newRow], nextId := db.nextId + 1 }
  if insertId = 0 then
    (Except.error (Failure.jsError ("Falha ao inserir funcionário")), db2)
  else
    (Except.ok (hashed, insertId), db2)

/-- `FuncionarioDAO.delete(obj)`: `DELETE FROM funcionario WHERE
idFuncionario = ?`, returning `affectedRows > 0`. -/
def FuncionarioDAO.delete (db : DB) (idFuncionario : Nat) : Bool × DB :=
  let affected := db.funcionarios.countP (fun r => r.idFuncionario == idFuncionario)
  (decide (0 < affected),
   { db with funcionarios := db.funcionarios.filter (fun r => !(r.idFuncionario == idFuncionario)) })

/-- The update payload the service passes to the DAO.  `senha = none`
models the JS field being `undefined` (absent from the request body). -/
structure FuncionarioUpd where
  idFuncionario : Nat
  nomeFuncionario : String
  email : String
  usuario : String
  senha : Option String
  cargoId : Nat
deriving DecidableEq, Repr

/-- JS truthiness of the optional `senha` field: `undefined` and the empty
string are falsy. -/
def senhaTruthy : Option String → Bool
  | none => false
  | some s => s != ""

/-- `FuncionarioDAO.update(obj)`: `if (obj.senha)` chooses between an
UPDATE statement that sets the `senha` column to a fresh bcrypt hash and
one whose SET-list omits `senha` entirely, so the stored hash is kept.
The returned boolean models `affectedRows > 0` (a row matched the id). -/
def FuncionarioDAO.update (db : DB) (obj : FuncionarioUpd) : Bool × DB :=
  if senhaTruthy obj.senha then
    let senhaHash := bcryptHash (obj.senha.getD (""))
    let newRows := db.funcionarios.map (fun r =>
      if r.idFuncionario == obj.idFuncionario then
        { idFuncionario := r.idFuncionario, nomeFuncionario := obj.nomeFuncionario,
          email := obj.email, usuario := obj.usuario, senha := senhaHash,
          cargoId := obj.cargoId }
      else r)
    (db.funcionarios.any (fun r => r.idFuncionario == obj.idFuncionario),
     { db with funcionarios := newRows })
  else
    let newRows := db.funcionarios.map (fun r =>
      if r.idFuncionario == obj.idFuncionario then
        { idFuncionario := r.idFuncionario, nomeFuncionario := obj.nomeFuncionario,
          email := obj.email, usuario := obj.usuario, senha := r.senha,
          cargoId := obj.cargoId }
      else r)
    (db.funcionarios.any (fun r => r.idFuncionario == obj.idFuncionario),
     { db with funcionarios := newRows })

/-- A row produced by the login query
`SELECT ... FROM funcionario JOIN cargo ON cargo.idCargo =
funcionario.Cargo_idCargo WHERE email = ?`. -/
structure LoginRow where
  idFuncionario : Nat
  nomeFuncionario : String
  email : String
  usuario : String
  senha : String
  idCargo : Nat
  nomeCargo : String
deriving DecidableEq, Repr

/-- The login query: inner join of the email-matching employee rows with
the `cargo` rows sharing the referenced role id. -/
def FuncionarioDAO.loginQuery (db : DB) (email : String) : List LoginRow :=
  (db.funcionarios.filter (fun f => f.email == email)).flatMap
    (fun f => (db.cargos.filter (fun c => c.idCargo == f.cargoId)).map
      (fun c =>
        { idFuncionario := f.idFuncionario, nomeFuncionario := f.nomeFuncionario,
          email := f.email, usuario := f.usuario, senha := f.senha,
          idCargo := c.idCargo, nomeCargo := c.nomeCargo }))

/-- The authenticated employee object `FuncionarioDAO.login` assembles on
success (no `senha` field is set on it). -/
structure AuthFuncionario where
  idFuncionario : Nat
  nomeFuncionario : String
  email : String
  usuario : String
  cargo : CargoRow
deriving DecidableEq, Repr

/-- `FuncionarioDAO.login(obj)`: runs the join query on the email; unless
exactly one row comes back it returns `null`; otherwise it verifies the
supplied plaintext against the stored hash with `bcrypt.compare` and on
success assembles the authenticated employee. -/
def FuncionarioDAO.login (db : DB) (email senha : String) : Option AuthFuncionario :=
  match FuncionarioDAO.loginQuery db email with
  | [row] =>
    if bcryptCompare senha row.senha then
      some { idFuncionario := row.idFuncionario, nomeFuncionario := row.nomeFuncionario,
             email := row.email, usuario := row.usuario,
             cargo := { idCargo := row.idCargo, nomeCargo := row.nomeCargo } }
    else
      none
  | _ => none

/-- The `cargo` sub-object of a create/update request body
(`{ idCargo }`). -/
structure CargoRef where
  idCargo : Nat
deriving DecidableEq, Repr

/-- The `jsonFuncionario` object `createFuncionario` receives (the
`funcionario` container of an already-validated create request). -/
structure CreateInput where
  nomeFuncionario : String
  email : String
  senha : String
  usuario : String
  cargo : CargoRef
deriving DecidableEq, Repr

/-- The error thrown when the referenced role does not exist
(`ErrorResponse(400, "O cargo informado não existe", ...)`). -/
def cargoNotFoundError (idCargo : Nat) : Failure :=
  Failure.response
    { statusCode := 400, title := "O cargo informado não existe",
      message := "O Cargo com ID " ++ toString idCargo ++ " não foi encontrado." }

/-- The duplicate-email conflict error of `createFuncionario`. -/
def emailConflictError (email : String) : Failure :=
  Failure.response
    { statusCode := 400, title := "Já existe um Funcionário com o email fornecido",
      message := "O email " ++ email ++ " já está cadastrado" }

/-- The duplicate-login-name conflict error of `createFuncionario`. -/
def usuarioConflictError (usuario : String) : Failure :=
  Failure.response
    { statusCode := 400, title := "Já existe um Funcionário com o usuário fornecido",
      message := "O usuário " ++ usuario ++ " já está cadastrado" }

/-- The single unauthorized error of `loginFuncionario`. -/
def unauthorizedError : Failure :=
  Failure.response
    { statusCode := 401, title := "Usuário ou senha inválidos",
      message := "Não foi possível realizar autenticação" }

/-- The not-found error of the service-level `findById`. -/
def notFoundError (idFuncionario : Nat) : Failure :=
  Failure.response
    { statusCode := 404, title := "Funcionário não encontrado",
      message := "Não existe funcionário com id " ++ toString idFuncionario }

/-- `FuncionarioService.createFuncionario(jsonFuncionario)`: role-existence
check, then duplicate-email check, then duplicate-`usuario` check (in that
textual order, each one a hard stop), then assembly of the `Funcionario`
object and delegation to `FuncionarioDAO.create`, which hashes the
password; the assigned id is attached to the (mutated) object. -/
def FuncionarioService.createFuncionario (db : DB) (jsonFuncionario : CreateInput) :
    (Except Failure Funcionario) × DB :=
  match CargoDAO.findById db jsonFuncionario.cargo.idCargo with
  | none => (Except.error (cargoNotFoundError jsonFuncionario.cargo.idCargo), db)
  | some _ =>
    match FuncionarioDAO.findByField db ("email") (FieldVal.str jsonFuncionario.email) with
    | Except.error e => (Except.error e, db)
    | Except.ok emailExiste =>
      if 0 < emailExiste.length then
        (Except.error (emailConflictError jsonFuncionario.email), db)
      else
        match FuncionarioDAO.findByField db ("usuario") (FieldVal.str jsonFuncionario.usuario) with
        | Except.error e => (Except.error e, db)
        | Except.ok usuarioExiste =>
          if 0 < usuarioExiste.length then
            (Except.error (usuarioConflictError jsonFuncionario.usuario), db)
          else
            let objFuncionario : Funcionario :=
              { idFuncionario := 0,
                nomeFuncionario := jsonFuncionario.nomeFuncionario,
                email := jsonFuncionario.email,
                usuario := jsonFuncionario.usuario,
                senha := jsonFuncionario.senha,
                cargoId := jsonFuncionario.cargo.idCargo }
            match FuncionarioDAO.create db objFuncionario with
            | (Except.error e, db2) => (Except.error e, db2)
            | (Except.ok (mutated, insertId), db2) =>
              (Except.ok { mutated with idFuncionario := insertId }, db2)

/-- The minimal claims object `loginFuncionario` builds on success. -/
structure Claims where
  email : String
  usuario : String
  role : Option String
  name : Option String
  idFuncionario : Nat
deriving DecidableEq, Repr

/-- Modelled from the spec: the Authentication Issuer
(`MeuTokenJWT.gerarToken(claims)` returns a signed token string; the spec
treats the encoding as opaque). -/
def MeuTokenJWT.gerarToken (claims : Claims) : String :=
  "jwt." ++ claims.email ++ "." ++ claims.usuario ++ "." ++ toString claims.idFuncionario

/-- The `{ user, token }` value returned by a successful login. -/
structure LoginResult where
  user : Claims
  token : String
deriving DecidableEq, Repr

/-- JS `s || null` on a string: the empty string is falsy and becomes
`null`. -/
def jsStringOrNull (s : String) : Option String :=
  if s == "" then none else some s

/-- `FuncionarioService.loginFuncionario(jsonFuncionario)`: delegates to
`FuncionarioDAO.login`; any absent result is turned into the one
`ErrorResponse(401, ...)`; on success the claims object is assembled and
signed. -/
def FuncionarioService.loginFuncionario (db : DB) (email senha : String) :
    Except Failure LoginResult :=
  match FuncionarioDAO.login db email senha with
  | none => Except.error unauthorizedError
  | some encontrado =>
    let claims : Claims :=
      { email := encontrado.email, usuario := encontrado.usuario,
        role := jsStringOrNull encontrado.cargo.nomeCargo,
        name := jsStringOrNull encontrado.nomeFuncionario,
        idFuncionario := encontrado.idFuncionario }
    Except.ok { user := claims, token := MeuTokenJWT.gerarToken claims }

/-- `FuncionarioService.findById(id)`: DAO lookup, `null` mapped to the
404 error, otherwise the raw row is returned. -/
def FuncionarioService.findById (db : DB) (idFuncionario : Nat) :
    Except Failure FuncionarioRow :=
  match FuncionarioDAO.findById db idFuncionario with
  | Except.error e => Except.error e
  | Except.ok none => Except.error (notFoundError idFuncionario)
  | Except.ok (some funcionario) => Except.ok funcionario

/-- The `funcionario` container of an update request body; `senha` may be
absent (`none`). -/
structure UpdateInput where
  nomeFuncionario : String
  email : String
  usuario : String
  senha : Option String
  cargo : CargoRef
deriving DecidableEq, Repr

/-- `FuncionarioService.updateFuncionario(id, requestBody)`: re-assembles
the `Funcionario` object from the body (no re-validation) and delegates to
`FuncionarioDAO.update`. -/
def FuncionarioService.updateFuncionario (db : DB) (idFuncionario : Nat)
    (jsonFuncionario : UpdateInput) : Bool × DB :=
  FuncionarioDAO.update db
    { idFuncionario := idFuncionario,
      nomeFuncionario := jsonFuncionario.nomeFuncionario,
      email := jsonFuncionario.email,
      usuario := jsonFuncionario.usuario,
      senha := jsonFuncionario.senha,
      cargoId := jsonFuncionario.cargo.idCargo }

/-- `FuncionarioService.deleteFuncionario(id)`: delegates straight to
`FuncionarioDAO.delete`. -/
def FuncionarioService.deleteFuncionario (db : DB) (idFuncionario : Nat) : Bool × DB :=
  FuncionarioDAO.delete db idFuncionario

/-- A JSON-ish JavaScript value, as seen by the validation middleware. -/
inductive JVal where
  | null
  | bool (b : Bool)
  | num (n : Int)
  | str (s : String)
  | obj (fields : List (String × JVal))

/-- JS truthiness of a defined value. -/
def JVal.truthy : JVal → Bool
  | JVal.null => false
  | JVal.bool b => b
  | JVal.num n => n != 0
  | JVal.str s => s != ""
  | JVal.obj _ => true

/-- JS property access `v[key]`: `none` models `undefined` (also for
access on a non-object value). -/
def jlookup : JVal → String → Option JVal
  | JVal.obj fields, key => (fields.find? (fun p => p.1 == key)).map (fun p => p.2)
  | _, _ => none

/-- The `camposObrigatorios` list of `validateCreateBody`. -/
def camposObrigatoriosCreate : List String :=
  ["nomeFuncionario", "email", "senha", "usuario", "cargo"]

/-- The per-field test of the `validateCreateBody` loop:
`=== undefined || === null || === ""`. -/
def campoMissing : Option JVal → Bool
  | none => true
  | some JVal.null => true
  | some (JVal.str s) => s == ""
  | some _ => false

/-- The `validateCreateBody` loop: the first required field that fails the
presence test, if any (the loop returns on the first failure). -/
def firstCampoMissing (funcionario : JVal) : List String → Option String
  | [] => none
  | campo :: rest =>
    if campoMissing (jlookup funcionario campo) then some campo
    else firstCampoMissing funcionario rest

/-- The uniform validation error of the middleware:
`ErrorResponse(400, "Erro na validação de dados", { message })`. -/
def validationError (message : String) : ErrorResponse :=
  { statusCode := 400, title := "Erro na validação de dados", message := message }

/-- The required-field validation message naming the offending field. -/
def campoObrigatorioMsg (campo : String) : String :=
  "O campo \x27" ++ campo ++ "\x27 é obrigatório!"

/-- `FuncionarioMiddleware.validateCreateBody`: requires a truthy body with
a truthy `funcionario` property; each required field present, non-null and
non-empty (first failure wins and names the field); `cargo` an object; and
`cargo.idCargo` a positive integer. -/
def FuncionarioMiddleware.validateCreateBody (body : Option JVal) :
    Except ErrorResponse Unit :=
  let funcionarioErr := validationError (campoObrigatorioMsg ("funcionario"))
  match body with
  | none => Except.error funcionarioErr
  | some b =>
    if b.truthy = false then Except.error funcionarioErr
    else
      match jlookup b ("funcionario") with
      | none => Except.error funcionarioErr
      | some funcionario =>
        if funcionario.truthy = false then Except.error funcionarioErr
        else
          match firstCampoMissing funcionario camposObrigatoriosCreate with
          | some campo => Except.error (validationError (campoObrigatorioMsg campo))
          | none =>
            match jlookup funcionario ("cargo") with
            | some (JVal.obj cargoFields) =>
              match jlookup (JVal.obj cargoFields) ("idCargo") with
              | some (JVal.num idCargo) =>
                if idCargo ≤ 0 then
                  Except.error (validationError
                    ("O campo \x27idCargo\x27 deve ser um número inteiro positivo"))
                else Except.ok ()
              | _ =>
                Except.error (validationError
                  ("O campo \x27idCargo\x27 deve ser um número inteiro positivo"))
            | _ =>
              Except.error (validationError ("O campo \x27cargo\x27 deve ser um objeto"))

/-- Modelled from the spec: the route wiring (an excluded collaborator)
runs the validation middleware first and invokes the workflow service only
when the middleware calls `next()` with no error.  The service stage is a
parameter so that the embedding can state that no service at all is
reached on a validation failure. -/
def runCreatePipeline (db : DB) (body : Option JVal)
    (service : DB → JVal → (Except Failure Funcionario) × DB) :
    (Except Failure Funcionario) × DB :=
  match FuncionarioMiddleware.validateCreateBody body with
  | Except.error e => (Except.error (Failure.response e), db)
  | Except.ok _ =>
    match body with
    | some b =>
      match jlookup b ("funcionario") with
      | some funcionario => service db funcionario
      | none => (Except.error (Failure.jsError ("unreachable")), db)
    | none => (Except.error (Failure.jsError ("unreachable")), db)

/-- Referential/primary-key integrity of the database state, as guaranteed
by the excluded storage collaborator (§3: a role identifier "must
pre-exist" and is unique): the role reference of every employee matches exactly
one `cargo` row. -/
def DBIntegrity (db : DB) : Prop :=
  ∀ r ∈ db.funcionarios, (db.cargos.filter (fun c => c.idCargo == r.cargoId)).length = 1

instance (db : DB) : Decidable (DBIntegrity db) := by
  unfold DBIntegrity; infer_instance

/-- Freshness of the auto-increment counter: storage assigns ids below
`nextId`, and MySQL auto-increment starts at 1. -/
def FreshIds (db : DB) : Prop :=
  0 < db.nextId ∧ ∀ r ∈ db.funcionarios, r.idFuncionario < db.nextId

instance (db : DB) : Decidable (FreshIds db) := by
  unfold FreshIds; infer_instance

/-! ### Concrete states used by the witnesses -/

/-- A stored role, id 1. -/
def cargo1 : CargoRow := { idCargo := 1, nomeCargo := "Gerente" }

/-- A stored employee referencing role 1, with a hashed password. -/
def anaRow : FuncionarioRow :=
  { idFuncionario := 1, nomeFuncionario := "Ana", email := "ana@x.com",
    usuario := "ana1", senha := bcryptHash ("secret"), cargoId := 1 }

/-- A one-employee, one-role database state. -/
def dbW : DB := { funcionarios := [anaRow], cargos := [cargo1], nextId := 2 }

/-- The same employee but with the referenced role absent from storage. -/
def dbNoCargo : DB := { funcionarios := [anaRow], cargos := [], nextId := 2 }

/-! ### Helper lemmas -/

theorem findByField_rejected (db : DB) (field : String) (value : FieldVal)
    (h : field ∉ allowedFields) :
    FuncionarioDAO.findByField db field value =
      Except.error (Failure.jsError ("Campo inválido para busca: " ++ field)) := by
  simp [FuncionarioDAO.findByField, h]

theorem findByField_allowed (db : DB) (field : String) (value : FieldVal)
    (h : field ∈ allowedFields) :
    FuncionarioDAO.findByField db field value =
      Except.ok (db.funcionarios.filter (fun row => rowFieldEq row field value)) := by
  simp [FuncionarioDAO.findByField, h]

theorem filter_email_pos (db : DB) (e : String)
    (h : ∃ r ∈ db.funcionarios, r.email = e) :
    0 < (db.funcionarios.filter
      (fun row => rowFieldEq row ("email") (FieldVal.str e))).length := by
  obtain ⟨r, hr, he⟩ := h
  refine List.length_pos_of_mem (a := r) ?_
  rw [List.mem_filter]
  exact ⟨hr, by simp [rowFieldEq, he]⟩

theorem filter_email_zero (db : DB) (e : String)
    (h : ∀ r ∈ db.funcionarios, r.email ≠ e) :
    (db.funcionarios.filter
      (fun row => rowFieldEq row ("email") (FieldVal.str e))).length = 0 := by
  rw [List.length_eq_zero, List.filter_eq_nil_iff]
  intro r hr
  simp only [rowFieldEq, decide_eq_true_eq, FieldVal.str.injEq]
  exact fun he => h r hr he.symm

theorem filter_usuario_pos (db : DB) (u : String)
    (h : ∃ r ∈ db.funcionarios, r.usuario = u) :
    0 < (db.funcionarios.filter
      (fun row => rowFieldEq row ("usuario") (FieldVal.str u))).length := by
  obtain ⟨r, hr, hu⟩ := h
  refine List.length_pos_of_mem (a := r) ?_
  rw [List.mem_filter]
  exact ⟨hr, by simp [rowFieldEq, hu]⟩

theorem createFuncionario_role_missing (db : DB) (j : CreateInput)
    (h : CargoDAO.findById db j.cargo.idCargo = none) :
    FuncionarioService.createFuncionario db j =
      (Except.error (cargoNotFoundError j.cargo.idCargo), db) := by
  simp [FuncionarioService.createFuncionario, h]

theorem createFuncionario_email_dup (db : DB) (j : CreateInput) (c : CargoRow)
    (hc : CargoDAO.findById db j.cargo.idCargo = some c)
    (hlen : 0 < (db.funcionarios.filter
      (fun row => rowFieldEq row ("email") (FieldVal.str j.email))).length) :
    FuncionarioService.createFuncionario db j =
      (Except.error (emailConflictError j.email), db) := by
  rw [FuncionarioService.createFuncionario, hc,
    findByField_allowed db ("email") (FieldVal.str j.email) (by decide)]
  simp [hlen]

theorem createFuncionario_usuario_dup (db : DB) (j : CreateInput) (c : CargoRow)
    (hc : CargoDAO.findById db j.cargo.idCargo = some c)
    (hemail : (db.funcionarios.filter
      (fun row => rowFieldEq row ("email") (FieldVal.str j.email))).length = 0)
    (hlen : 0 < (db.funcionarios.filter
      (fun row => rowFieldEq row ("usuario") (FieldVal.str j.usuario))).length) :
    FuncionarioService.createFuncionario db j =
      (Except.error (usuarioConflictError j.usuario), db) := by
  rw [FuncionarioService.createFuncionario, hc,
    findByField_allowed db ("email") (FieldVal.str j.email) (by decide),
    findByField_allowed db ("usuario") (FieldVal.str j.usuario) (by decide)]
  simp [hemail, hlen]

/-! ### Claims about `createFuncionario` ordering and conflicts -/

/-- Claim C1: `createFuncionario` runs its business-rule checks in the
fixed order role-existence, then duplicate email, then duplicate
`usuario`, and the first failing check determines the error: a missing
role id yields the 400 not-found-reference error whose message names the
missing role id (with no other check consulted and the state unchanged —
no employee row is written); a duplicate email is reported only when the
role exists; a duplicate `usuario` only when the role exists and the email
is fresh. -/
theorem create_checks_ordered_role_first (db : DB) (j : CreateInput) :
    (CargoDAO.findById db j.cargo.idCargo = none →
      FuncionarioService.createFuncionario db j =
        (Except.error (cargoNotFoundError j.cargo.idCargo), db))
    ∧ (∀ c : CargoRow, CargoDAO.findById db j.cargo.idCargo = some c →
        0 < (db.funcionarios.filter
          (fun row => rowFieldEq row ("email") (FieldVal.str j.email))).length →
        FuncionarioService.createFuncionario db j =
          (Except.error (emailConflictError j.email), db))
    ∧ (∀ c : CargoRow, CargoDAO.findById db j.cargo.idCargo = some c →
        (db.funcionarios.filter
          (fun row => rowFieldEq row ("email") (FieldVal.str j.email))).length = 0 →
        0 < (db.funcionarios.filter
          (fun row => rowFieldEq row ("usuario") (FieldVal.str j.usuario))).length →
        FuncionarioService.createFuncionario db j =
          (Except.error (usuarioConflictError j.usuario), db)) :=
  ⟨fun h => createFuncionario_role_missing db j h,
   fun c hc hlen => createFuncionario_email_dup db j c hc hlen,
   fun c hc hemail hlen => createFuncionario_usuario_dup db j c hc hemail hlen⟩

/-- A create input whose role reference (99) does not exist in `dbW` and
whose email duplicates the stored one. -/
def jBadCargo : CreateInput :=
  { nomeFuncionario := "Bob", email := "ana@x.com", senha := "pw",
    usuario := "bob1", cargo := { idCargo := 99 } }

/-- Witness for C1: on `dbW`, a create whose role id 99 is missing fails
with the role error — even though its email also duplicates a stored one —
and leaves the state untouched. -/
theorem create_checks_ordered_role_first_witness :
    FuncionarioService.createFuncionario dbW jBadCargo =
      (Except.error (cargoNotFoundError 99), dbW) :=
  (create_checks_ordered_role_first dbW jBadCargo).1 (by decide)

/-- A create input for `dbNoCargo`: duplicate email, role reference 1
absent from storage. -/
def jDupEmailNoCargo : CreateInput :=
  { nomeFuncionario := "Bob", email := "ana@x.com", senha := "pw",
    usuario := "bob7", cargo := { idCargo := 1 } }

/-- Claim C4 counterexample: with employee `anaRow` (email "ana@x.com")
stored but the referenced role absent, a create supplying the duplicate
email fails with the role not-found error — not with a conflict error — so
the conflict outcome does not hold regardless of the other field values. -/
theorem create_conflict_counterexample :
    FuncionarioService.createFuncionario dbNoCargo jDupEmailNoCargo =
      (Except.error (cargoNotFoundError 1), dbNoCargo)
    ∧ cargoNotFoundError 1 ≠ emailConflictError ("ana@x.com")
    ∧ cargoNotFoundError 1 ≠ usuarioConflictError ("bob7") := by
  refine ⟨rfl, by decide, by decide⟩

/-- Claim C4 (amended): provided the referenced role exists, a create
supplying the email of a stored employee fails with the email-conflict
error regardless of its other field values, and a create supplying the
login-name of a stored employee fails with the `usuario`-conflict error
even when its email differs from every stored email; in both cases the
returned state is the unchanged input state (no persistence write). -/
theorem create_duplicate_conflicts (db : DB) (j : CreateInput) (c : CargoRow)
    (hrole : CargoDAO.findById db j.cargo.idCargo = some c) :
    ((∃ r ∈ db.funcionarios, r.email = j.email) →
      FuncionarioService.createFuncionario db j =
        (Except.error (emailConflictError j.email), db))
    ∧ ((∀ r ∈ db.funcionarios, r.email ≠ j.email) →
      (∃ r ∈ db.funcionarios, r.usuario = j.usuario) →
      FuncionarioService.createFuncionario db j =
        (Except.error (usuarioConflictError j.usuario), db)) := by
  constructor
  · intro h
    exact createFuncionario_email_dup db j c hrole (filter_email_pos db j.email h)
  · intro h0 h1
    exact createFuncionario_usuario_dup db j c hrole
      (filter_email_zero db j.email h0) (filter_usuario_pos db j.usuario h1)

/-- A create input for `dbW` with a fresh email but the stored login-name
`ana1`, referencing the existing role 1. -/
def jDupUsuario : CreateInput :=
  { nomeFuncionario := "Carla", email := "carla@x.com", senha := "pw",
    usuario := "ana1", cargo := { idCargo := 1 } }

/-- Witness for the amended C4: on `dbW`, a create with a fresh email but
the stored login-name fails with the `usuario`-conflict error and leaves
the state untouched. -/
theorem create_duplicate_conflicts_witness :
    FuncionarioService.createFuncionario dbW jDupUsuario =
      (Except.error (usuarioConflictError ("ana1")), dbW) :=
  (create_duplicate_conflicts dbW jDupUsuario cargo1 (by decide)).2
    (by decide) (by decide)

/-- Claim C7: `findByField` rejects every column name outside the
allow-list with the invalid-field error (no query over the state is run:
the result is the same error for every database and value), and for every
allowed column it returns the — possibly empty — list of rows matching the
parameterized equality. -/
theorem findByField_allowlist (db : DB) (field : String) (value : FieldVal) :
    (field ∉ allowedFields →
      FuncionarioDAO.findByField db field value =
        Except.error (Failure.jsError ("Campo inválido para busca: " ++ field)))
    ∧ (field ∈ allowedFields →
      FuncionarioDAO.findByField db field value =
        Except.ok (db.funcionarios.filter (fun row => rowFieldEq row field value))) :=
  ⟨findByField_rejected db field value, findByField_allowed db field value⟩

/-- Witness for C7: on `dbW`, the disallowed name "idCargo" is rejected
with the invalid-field error, and the allowed name "email" returns the
matching row. -/
theorem findByField_allowlist_witness :
    FuncionarioDAO.findByField dbW ("idCargo") (FieldVal.num 1) =
      Except.error (Failure.jsError ("Campo inválido para busca: " ++ "idCargo"))
    ∧ FuncionarioDAO.findByField dbW ("email") (FieldVal.str ("ana@x.com")) =
      Except.ok [anaRow] :=
  ⟨(findByField_allowlist dbW ("idCargo") (FieldVal.num 1)).1 (by decide),
   (findByField_allowlist dbW ("email") (FieldVal.str ("ana@x.com"))).2 (by decide)⟩

/-! ### The hash is never the plaintext -/

theorem bcryptHash_ne (p : String) : bcryptHash p ≠ p := by
  intro h
  have hl := congrArg String.length h
  rw [bcryptHash, String.length_append] at hl
  have h7 : ("$2b$12$" : String).length = 7 := rfl
  omega

/-! ### Update: the password column frame -/

theorem map_senha_preserved (obj : FuncionarioUpd) (l : List FuncionarioRow) :
    (l.map (fun r =>
      if r.idFuncionario == obj.idFuncionario then
        { idFuncionario := r.idFuncionario, nomeFuncionario := obj.nomeFuncionario,
          email := obj.email, usuario := obj.usuario, senha := r.senha,
          cargoId := obj.cargoId }
      else r)).map (fun r => r.senha) = l.map (fun r => r.senha) := by
  simp only [List.map_map, List.map_inj_left, Function.comp]
  intro a _
  by_cases h : a.idFuncionario = obj.idFuncionario <;> simp [h]

theorem updateFuncionario_no_senha (db : DB) (idF : Nat) (j : UpdateInput)
    (hs : senhaTruthy j.senha = false) :
    (FuncionarioService.updateFuncionario db idF j).2.funcionarios
      = db.funcionarios.map (fun r =>
          if r.idFuncionario == idF then
            { idFuncionario := r.idFuncionario, nomeFuncionario := j.nomeFuncionario,
              email := j.email, usuario := j.usuario, senha := r.senha,
              cargoId := j.cargo.idCargo }
          else r) := by
  simp [FuncionarioService.updateFuncionario, FuncionarioDAO.update, hs]

theorem updateFuncionario_with_senha (db : DB) (idF : Nat) (j : UpdateInput)
    (s : String) (hsome : j.senha = some s) (hne : s ≠ "") :
    (FuncionarioService.updateFuncionario db idF j).2.funcionarios
      = db.funcionarios.map (fun r =>
          if r.idFuncionario == idF then
            { idFuncionario := r.idFuncionario, nomeFuncionario := j.nomeFuncionario,
              email := j.email, usuario := j.usuario, senha := bcryptHash s,
              cargoId := j.cargo.idCargo }
          else r) := by
  have hs : senhaTruthy (some s) = true := by simp [senhaTruthy, hne]
  simp [FuncionarioService.updateFuncionario, FuncionarioDAO.update, hsome, hs]

/-- Claim C3: when the password field of the update input is absent or empty,
the update does not touch the `senha` column: every row keeps its stored
hash (stated both as the full row transformation, whose matched rows carry
`senha := r.senha`, and as preservation of the whole `senha` column), so a
plaintext that verified against the stored hash before the update still
verifies after it; when the password field is a non-empty string, the
the `senha` of matched rows is replaced by the bcrypt hash of the new value. -/
theorem update_password_frame (db : DB) (idF : Nat) (j : UpdateInput) :
    (senhaTruthy j.senha = false →
      ((FuncionarioService.updateFuncionario db idF j).2.funcionarios
        = db.funcionarios.map (fun r =>
            if r.idFuncionario == idF then
              { idFuncionario := r.idFuncionario, nomeFuncionario := j.nomeFuncionario,
                email := j.email, usuario := j.usuario, senha := r.senha,
                cargoId := j.cargo.idCargo }
            else r))
      ∧ ((FuncionarioService.updateFuncionario db idF j).2.funcionarios.map
            (fun r => r.senha)
          = db.funcionarios.map (fun r => r.senha))
      ∧ ∀ r ∈ db.funcionarios, r.idFuncionario = idF →
          ∀ p : String, bcryptCompare p r.senha = true →
            ∃ r2 ∈ (FuncionarioService.updateFuncionario db idF j).2.funcionarios,
              r2.idFuncionario = idF ∧ bcryptCompare p r2.senha = true)
    ∧ (∀ s : String, j.senha = some s → s ≠ "" →
      (FuncionarioService.updateFuncionario db idF j).2.funcionarios
        = db.funcionarios.map (fun r =>
            if r.idFuncionario == idF then
              { idFuncionario := r.idFuncionario, nomeFuncionario := j.nomeFuncionario,
                email := j.email, usuario := j.usuario, senha := bcryptHash s,
                cargoId := j.cargo.idCargo }
            else r)) := by
  constructor
  · intro hs
    have hrows := updateFuncionario_no_senha db idF j hs
    refine ⟨hrows, ?_, ?_⟩
    · rw [hrows]
      exact map_senha_preserved
        { idFuncionario := idF, nomeFuncionario := j.nomeFuncionario,
          email := j.email, usuario := j.usuario, senha := j.senha,
          cargoId := j.cargo.idCargo } db.funcionarios
    · intro r hr hid p hp
      rw [hrows]
      refine ⟨_, List.mem_map_of_mem _ hr, ?_, ?_⟩
      · simp [hid]
      · simp [hid, hp]
  · intro s hsome hne
    exact updateFuncionario_with_senha db idF j s hsome hne

/-- An update body whose password field is absent. -/
def jUpdNoSenha : UpdateInput :=
  { nomeFuncionario := "Ana Maria", email := "ana@x.com", usuario := "ana1",
    senha := none, cargo := { idCargo := 1 } }

/-- Witness for C3: updating `anaRow` with a password-less body leaves the
stored `senha` column exactly as it was. -/
theorem update_password_frame_witness :
    (FuncionarioService.updateFuncionario dbW 1 jUpdNoSenha).2.funcionarios.map
        (fun r => r.senha)
      = dbW.funcionarios.map (fun r => r.senha) :=
  ((update_password_frame dbW 1 jUpdNoSenha).1 (by decide)).2.1

/-! ### Delete -/

/-- Claim C6: `deleteFuncionario` returns `true` exactly when some stored
row carries the requested identifier; for an identifier matching no stored
employee it returns the plain boolean `false` with the state unchanged
(no error value is even possible in its return type), and whenever it
returns `true` a row really was removed (the table shrank). -/
theorem delete_returns_presence (db : DB) (idF : Nat) :
    ((FuncionarioService.deleteFuncionario db idF).1 = true ↔
      ∃ r ∈ db.funcionarios, r.idFuncionario = idF)
    ∧ ((∀ r ∈ db.funcionarios, r.idFuncionario ≠ idF) →
      FuncionarioService.deleteFuncionario db idF = (false, db))
    ∧ ((FuncionarioService.deleteFuncionario db idF).1 = true →
      (FuncionarioService.deleteFuncionario db idF).2.funcionarios.length
        < db.funcionarios.length) := by
  refine ⟨?_, ?_, ?_⟩
  · simp [FuncionarioService.deleteFuncionario, FuncionarioDAO.delete,
      List.countP_pos_iff]
  · intro h
    have h1 : db.funcionarios.countP (fun r => r.idFuncionario == idF) = 0 := by
      rw [List.countP_eq_zero]
      intro r hr
      simpa using h r hr
    have h2 : db.funcionarios.filter (fun r => !(r.idFuncionario == idF))
        = db.funcionarios := by
      rw [List.filter_eq_self]
      intro r hr
      simpa using h r hr
    simp [FuncionarioService.deleteFuncionario, FuncionarioDAO.delete, h1, h2]
  · intro h
    have hex : ∃ r ∈ db.funcionarios, r.idFuncionario = idF := by
      simpa [FuncionarioService.deleteFuncionario, FuncionarioDAO.delete,
        List.countP_pos_iff] using h
    simp only [FuncionarioService.deleteFuncionario, FuncionarioDAO.delete]
    rw [List.length_filter_lt_length_iff_exists]
    obtain ⟨r, hr, he⟩ := hex
    exact ⟨r, hr, by simp [he]⟩

/-- Witness for C6: `dbW` holds no employee with id 99, so the delete
returns `false` and the state is untouched. -/
theorem delete_returns_presence_witness :
    FuncionarioService.deleteFuncionario dbW 99 = (false, dbW) :=
  (delete_returns_presence dbW 99).2.1 (by decide)

/-! ### Login: the join query and the single unauthorized error -/

theorem sum_map_ones {α : Type} (l : List α) (g : α → Nat)
    (h : ∀ a ∈ l, g a = 1) : (l.map g).sum = l.length := by
  induction l with
  | nil => rfl
  | cons a t ih =>
    simp only [List.map_cons, List.sum_cons, h a (List.mem_cons_self a t),
      List.length_cons]
    rw [ih (fun b hb => h b (List.mem_cons_of_mem a hb))]
    omega

theorem loginQuery_length (db : DB) (email : String) (hInt : DBIntegrity db) :
    (FuncionarioDAO.loginQuery db email).length
      = (db.funcionarios.filter (fun f => f.email == email)).length := by
  unfold FuncionarioDAO.loginQuery
  rw [List.length_flatMap]
  refine sum_map_ones _ _ ?_
  intro f hf
  simp only [Function.comp_apply, List.length_map]
  exact hInt f (List.mem_of_mem_filter hf)

theorem loginQuery_nil (db : DB) (email : String)
    (h : ∀ r ∈ db.funcionarios, r.email ≠ email) :
    FuncionarioDAO.loginQuery db email = [] := by
  unfold FuncionarioDAO.loginQuery
  have hfil : db.funcionarios.filter (fun f => f.email == email) = [] := by
    rw [List.filter_eq_nil_iff]
    intro r hr
    simpa using h r hr
  rw [hfil]
  rfl

theorem loginQuery_singleton (db : DB) (email : String) (r : FuncionarioRow)
    (hInt : DBIntegrity db)
    (hfilter : db.funcionarios.filter (fun f => f.email == email) = [r]) :
    ∃ row : LoginRow, FuncionarioDAO.loginQuery db email = [row]
      ∧ row.senha = r.senha := by
  have hr : r ∈ db.funcionarios := by
    refine List.mem_of_mem_filter (p := fun f => f.email == email) ?_
    rw [hfilter]
    exact List.mem_singleton_self r
  obtain ⟨c, hc⟩ := List.length_eq_one.mp (hInt r hr)
  unfold FuncionarioDAO.loginQuery
  rw [hfilter, List.flatMap_cons, List.flatMap_nil, hc]
  exact ⟨⟨r.idFuncionario, r.nomeFuncionario, r.email, r.usuario, r.senha,
    c.idCargo, c.nomeCargo⟩, by simp, rfl⟩

theorem login_none_of_query_not_singleton (db : DB) (email senha : String)
    (h : ∀ row : LoginRow, FuncionarioDAO.loginQuery db email ≠ [row]) :
    FuncionarioDAO.login db email senha = none := by
  unfold FuncionarioDAO.login
  cases hq : FuncionarioDAO.loginQuery db email with
  | nil => rfl
  | cons a t =>
    cases t with
    | nil => exact absurd hq (h a)
    | cons b t2 => rfl

theorem login_some_query_singleton (db : DB) (email senha : String)
    (f : AuthFuncionario) (hf : FuncionarioDAO.login db email senha = some f) :
    (FuncionarioDAO.loginQuery db email).length = 1 := by
  unfold FuncionarioDAO.login at hf
  cases hq : FuncionarioDAO.loginQuery db email with
  | nil =>
    rw [hq] at hf
    simp at hf
  | cons a t =>
    cases t with
    | nil => rfl
    | cons b t2 =>
      rw [hq] at hf
      simp at hf

/-- Claim C2: an unknown email and a known email with a wrong password are
observationally indistinguishable at login: both attempts produce the very
same unauthorized failure value (status 401, same title and message),
because the service maps every absent DAO result to the single
`unauthorizedError`. -/
theorem login_failures_identical (db : DB) (e1 p1 e2 p2 : String)
    (hInt : DBIntegrity db)
    (h1 : ∀ r ∈ db.funcionarios, r.email ≠ e1)
    (r : FuncionarioRow) (hr : r ∈ db.funcionarios) (hre : r.email = e2)
    (huniq : (db.funcionarios.filter (fun f => f.email == e2)).length = 1)
    (hwrong : bcryptCompare p2 r.senha = false) :
    FuncionarioService.loginFuncionario db e1 p1 = Except.error unauthorizedError
    ∧ FuncionarioService.loginFuncionario db e2 p2
        = Except.error unauthorizedError := by
  constructor
  · have hq := loginQuery_nil db e1 h1
    simp [FuncionarioService.loginFuncionario, FuncionarioDAO.login, hq]
  · have hfil : db.funcionarios.filter (fun f => f.email == e2) = [r] := by
      obtain ⟨a, ha⟩ := List.length_eq_one.mp huniq
      have hmem : r ∈ db.funcionarios.filter (fun f => f.email == e2) := by
        rw [List.mem_filter]
        exact ⟨hr, by simp [hre]⟩
      rw [ha] at hmem
      rw [List.mem_singleton] at hmem
      rw [ha, hmem]
    obtain ⟨row, hrow, hsenha⟩ := loginQuery_singleton db e2 r hInt hfil
    simp [FuncionarioService.loginFuncionario, FuncionarioDAO.login, hrow,
      hsenha, hwrong]

/-- Witness for C2: on `dbW`, a login with an unknown email and a login
with the stored email but a wrong password both return exactly the
unauthorized error. -/
theorem login_failures_identical_witness :
    FuncionarioService.loginFuncionario dbW ("zoe@x.com") ("whatever")
        = Except.error unauthorizedError
    ∧ FuncionarioService.loginFuncionario dbW ("ana@x.com") ("wrong")
        = Except.error unauthorizedError :=
  login_failures_identical dbW ("zoe@x.com") ("whatever") ("ana@x.com") ("wrong")
    (by decide) (by decide) anaRow (by decide) (by decide) (by decide) (by decide)

/-- Claim C10: under referential integrity of the storage, the DAO login
returns an authenticated employee only when exactly one stored row matches
the supplied email; when zero rows or several rows match, it returns
`none` — for every supplied password, so no hash comparison can influence
the outcome — and the service login fails with the unauthorized error. -/
theorem login_requires_unique_email (db : DB) (email senha : String)
    (hInt : DBIntegrity db) :
    (∀ f : AuthFuncionario, FuncionarioDAO.login db email senha = some f →
      (db.funcionarios.filter (fun r => r.email == email)).length = 1)
    ∧ ((db.funcionarios.filter (fun r => r.email == email)).length ≠ 1 →
      FuncionarioDAO.login db email senha = none
      ∧ FuncionarioService.loginFuncionario db email senha
          = Except.error unauthorizedError)
    ∧ ((db.funcionarios.filter (fun r => r.email == email)).length ≠ 1 →
      ∀ p q : String,
        FuncionarioDAO.login db email p = FuncionarioDAO.login db email q) := by
  have hlen := loginQuery_length db email hInt
  have hnotsing : (db.funcionarios.filter (fun r => r.email == email)).length ≠ 1 →
      ∀ row : LoginRow, FuncionarioDAO.loginQuery db email ≠ [row] := by
    intro hne row hrow
    rw [hrow] at hlen
    exact hne hlen.symm
  refine ⟨?_, ?_, ?_⟩
  · intro f hf
    rw [← hlen]
    exact login_some_query_singleton db email senha f hf
  · intro hne
    have hnone := login_none_of_query_not_singleton db email senha (hnotsing hne)
    exact ⟨hnone, by simp [FuncionarioService.loginFuncionario, hnone]⟩
  · intro hne p q
    rw [login_none_of_query_not_singleton db email p (hnotsing hne),
      login_none_of_query_not_singleton db email q (hnotsing hne)]

/-- A second stored employee with the same email as `anaRow`. -/
def anaRow2 : FuncionarioRow :=
  { idFuncionario := 2, nomeFuncionario := "Ana B", email := "ana@x.com",
    usuario := "ana2", senha := bcryptHash ("outra"), cargoId := 1 }

/-- A database state with a duplicated email. -/
def dbDup : DB := { funcionarios := [anaRow, anaRow2], cargos := [cargo1], nextId := 3 }

/-- Witness for C10: with two stored rows sharing the email, the login
returns `none` and the service fails unauthorized — even with the correct
password of the first row. -/
theorem login_requires_unique_email_witness :
    FuncionarioDAO.login dbDup ("ana@x.com") ("secret") = none
    ∧ FuncionarioService.loginFuncionario dbDup ("ana@x.com") ("secret")
        = Except.error unauthorizedError :=
  (login_requires_unique_email dbDup ("ana@x.com") ("secret") (by decide)).2.1
    (by decide)

/-! ### Create success path and round-trip -/

theorem createFuncionario_success (db : DB) (j : CreateInput) (c : CargoRow)
    (hc : CargoDAO.findById db j.cargo.idCargo = some c)
    (hemail : (db.funcionarios.filter
      (fun row => rowFieldEq row ("email") (FieldVal.str j.email))).length = 0)
    (husuario : (db.funcionarios.filter
      (fun row => rowFieldEq row ("usuario") (FieldVal.str j.usuario))).length = 0)
    (hnz : db.nextId ≠ 0) :
    FuncionarioService.createFuncionario db j =
      (Except.ok
        { idFuncionario := db.nextId, nomeFuncionario := j.nomeFuncionario,
          email := j.email, usuario := j.usuario, senha := bcryptHash j.senha,
          cargoId := j.cargo.idCargo },
       { funcionarios := db.funcionarios ++
           [{ idFuncionario := db.nextId, nomeFuncionario := j.nomeFuncionario,
              email := j.email, usuario := j.usuario, senha := bcryptHash j.senha,
              cargoId := j.cargo.idCargo }],
         cargos := db.cargos, nextId := db.nextId + 1 }) := by
  rw [FuncionarioService.createFuncionario, hc,
    findByField_allowed db ("email") (FieldVal.str j.email) (by decide),
    findByField_allowed db ("usuario") (FieldVal.str j.usuario) (by decide)]
  simp [hemail, husuario, FuncionarioDAO.create, hnz]

/-- Claim C5: after a create accepted by all three checks, a `findById` on
the identifier handed back by the create returns the stored row, whose
visible fields (name, email, login-name, role reference) are exactly the
input fields, and whose `senha` value is the bcrypt hash — never the
supplied plaintext. -/
theorem create_findById_roundtrip (db : DB) (j : CreateInput)
    (hfresh : FreshIds db) (c : CargoRow)
    (hc : CargoDAO.findById db j.cargo.idCargo = some c)
    (hemail : (db.funcionarios.filter
      (fun row => rowFieldEq row ("email") (FieldVal.str j.email))).length = 0)
    (husuario : (db.funcionarios.filter
      (fun row => rowFieldEq row ("usuario") (FieldVal.str j.usuario))).length = 0) :
    (FuncionarioService.createFuncionario db j).1 =
      Except.ok
        { idFuncionario := db.nextId, nomeFuncionario := j.nomeFuncionario,
          email := j.email, usuario := j.usuario, senha := bcryptHash j.senha,
          cargoId := j.cargo.idCargo }
    ∧ FuncionarioService.findById (FuncionarioService.createFuncionario db j).2 db.nextId
        = Except.ok
          { idFuncionario := db.nextId, nomeFuncionario := j.nomeFuncionario,
            email := j.email, usuario := j.usuario, senha := bcryptHash j.senha,
            cargoId := j.cargo.idCargo }
    ∧ bcryptHash j.senha ≠ j.senha := by
  obtain ⟨hpos, hlt⟩ := hfresh
  have hcr := createFuncionario_success db j c hc hemail husuario (by omega)
  refine ⟨by rw [hcr], ?_, bcryptHash_ne j.senha⟩
  rw [hcr]
  unfold FuncionarioService.findById FuncionarioDAO.findById
  rw [findByField_allowed _ ("idFuncionario") (FieldVal.num db.nextId) (by decide)]
  have hold : db.funcionarios.filter
      (fun row => decide (db.nextId = row.idFuncionario)) = [] := by
    rw [List.filter_eq_nil_iff]
    intro r hr
    have hr2 := hlt r hr
    simp only [decide_eq_true_eq]
    omega
  simp [List.filter_append, hold, rowFieldEq, Except.map, List.head?]

/-- A create input for `dbW` passing every check. -/
def jBob : CreateInput :=
  { nomeFuncionario := "Bob", email := "bob@x.com", senha := "pw",
    usuario := "bob1", cargo := { idCargo := 1 } }

/-- The employee value returned for `jBob` on `dbW`. -/
def fBob : Funcionario :=
  { idFuncionario := 2, nomeFuncionario := "Bob", email := "bob@x.com",
    usuario := "bob1", senha := bcryptHash ("pw"), cargoId := 1 }

/-- Witness for C5: the concrete round trip on `dbW` with `jBob`. -/
theorem create_findById_roundtrip_witness :
    (FuncionarioService.createFuncionario dbW jBob).1 = Except.ok fBob
    ∧ FuncionarioService.findById (FuncionarioService.createFuncionario dbW jBob).2 2
        = Except.ok
          { idFuncionario := 2, nomeFuncionario := "Bob", email := "bob@x.com",
            usuario := "bob1", senha := bcryptHash ("pw"), cargoId := 1 }
    ∧ bcryptHash ("pw") ≠ "pw" :=
  create_findById_roundtrip dbW jBob (by decide) cargo1 (by decide) (by decide)
    (by decide)

/-! ### The returned object carries the hash -/

theorem createFuncionario_ok_senha (db : DB) (j : CreateInput) (f : Funcionario)
    (h : (FuncionarioService.createFuncionario db j).1 = Except.ok f) :
    f.senha = bcryptHash j.senha := by
  cases hc : CargoDAO.findById db j.cargo.idCargo with
  | none =>
    rw [FuncionarioService.createFuncionario, hc] at h
    simp at h
  | some c =>
    rw [FuncionarioService.createFuncionario, hc,
      findByField_allowed db ("email") (FieldVal.str j.email) (by decide),
      findByField_allowed db ("usuario") (FieldVal.str j.usuario) (by decide)] at h
    by_cases he : 0 < (db.funcionarios.filter
        (fun row => rowFieldEq row ("email") (FieldVal.str j.email))).length
    · simp [he] at h
    · by_cases hu : 0 < (db.funcionarios.filter
          (fun row => rowFieldEq row ("usuario") (FieldVal.str j.usuario))).length
      · simp [he, hu] at h
      · by_cases hz : db.nextId = 0
        · simp [he, hu, FuncionarioDAO.create, hz] at h
        · simp [he, hu, FuncionarioDAO.create, hz] at h
          rw [← h]

/-- Claim C9: whenever `createFuncionario` succeeds, the `Funcionario`
value it hands back is the very object the service assembled, whose
`senha` field `FuncionarioDAO.create` overwrote with the bcrypt hash
before the INSERT — so the caller observes the hash, never the supplied
plaintext. -/
theorem create_returns_hashed_password (db : DB) (j : CreateInput) (f : Funcionario)
    (h : (FuncionarioService.createFuncionario db j).1 = Except.ok f) :
    f.senha = bcryptHash j.senha ∧ f.senha ≠ j.senha := by
  have hs := createFuncionario_ok_senha db j f h
  refine ⟨hs, ?_⟩
  rw [hs]
  exact bcryptHash_ne j.senha

/-- Witness for C9: on `dbW` with `jBob`, the `senha` of the returned object is
the hash of "pw", not "pw". -/
theorem create_returns_hashed_password_witness :
    fBob.senha = bcryptHash ("pw") ∧ fBob.senha ≠ "pw" :=
  create_returns_hashed_password dbW jBob fBob (by rfl)

/-! ### Create-shape validation -/

theorem firstCampoMissing_is_missing (f : JVal) (cs : List String) (campo : String)
    (h : firstCampoMissing f cs = some campo) :
    campo ∈ cs ∧ campoMissing (jlookup f campo) = true := by
  induction cs with
  | nil => simp [firstCampoMissing] at h
  | cons c t ih =>
    rw [firstCampoMissing] at h
    by_cases hc : campoMissing (jlookup f c) = true
    · rw [if_pos hc] at h
      cases h
      exact ⟨List.mem_cons_self _ t, hc⟩
    · rw [if_neg hc] at h
      obtain ⟨h1, h2⟩ := ih h
      exact ⟨List.mem_cons_of_mem c h1, h2⟩

theorem firstCampoMissing_none (f : JVal) (cs : List String)
    (h : firstCampoMissing f cs = none) :
    ∀ c ∈ cs, campoMissing (jlookup f c) = false := by
  induction cs with
  | nil =>
    intro c hc
    cases hc
  | cons c t ih =>
    rw [firstCampoMissing] at h
    by_cases hc : campoMissing (jlookup f c) = true
    · rw [if_pos hc] at h
      cases h
    · rw [if_neg hc] at h
      intro d hd
      rcases List.mem_cons.mp hd with rfl | hd2
      · simpa using hc
      · exact ih h d hd2

theorem firstCampoMissing_of_exists (f : JVal) (cs : List String)
    (h : ∃ c ∈ cs, campoMissing (jlookup f c) = true) :
    firstCampoMissing f cs ≠ none := by
  intro hn
  obtain ⟨c, hc, hm⟩ := h
  rw [firstCampoMissing_none f cs hn c hc] at hm
  exact Bool.noConfusion hm

theorem validateCreateBody_none :
    FuncionarioMiddleware.validateCreateBody none
      = Except.error (validationError (campoObrigatorioMsg ("funcionario"))) := rfl

theorem validateCreateBody_falsy_body (b : JVal) (hb : JVal.truthy b = false) :
    FuncionarioMiddleware.validateCreateBody (some b)
      = Except.error (validationError (campoObrigatorioMsg ("funcionario"))) := by
  rw [FuncionarioMiddleware.validateCreateBody]
  simp [hb]

theorem validateCreateBody_no_container (b : JVal) (hb : JVal.truthy b = true)
    (hf : jlookup b ("funcionario") = none) :
    FuncionarioMiddleware.validateCreateBody (some b)
      = Except.error (validationError (campoObrigatorioMsg ("funcionario"))) := by
  rw [FuncionarioMiddleware.validateCreateBody]
  simp [hb, hf]

theorem validateCreateBody_falsy_container (b f : JVal) (hb : JVal.truthy b = true)
    (hf : jlookup b ("funcionario") = some f) (hft : JVal.truthy f = false) :
    FuncionarioMiddleware.validateCreateBody (some b)
      = Except.error (validationError (campoObrigatorioMsg ("funcionario"))) := by
  rw [FuncionarioMiddleware.validateCreateBody]
  simp [hb, hf, hft]

theorem validateCreateBody_campo_missing (b f : JVal) (campo : String)
    (hb : JVal.truthy b = true) (hf : jlookup b ("funcionario") = some f)
    (hft : JVal.truthy f = true)
    (hm : firstCampoMissing f camposObrigatoriosCreate = some campo) :
    FuncionarioMiddleware.validateCreateBody (some b)
      = Except.error (validationError (campoObrigatorioMsg campo)) := by
  rw [FuncionarioMiddleware.validateCreateBody]
  simp [hb, hf, hft, hm]

theorem validateCreateBody_cargo_not_obj (b f cv : JVal)
    (hb : JVal.truthy b = true) (hf : jlookup b ("funcionario") = some f)
    (hft : JVal.truthy f = true)
    (hm : firstCampoMissing f camposObrigatoriosCreate = none)
    (hc : jlookup f ("cargo") = some cv)
    (hno : ∀ cf : List (String × JVal), cv ≠ JVal.obj cf) :
    FuncionarioMiddleware.validateCreateBody (some b)
      = Except.error (validationError ("O campo \x27cargo\x27 deve ser um objeto")) := by
  rw [FuncionarioMiddleware.validateCreateBody]
  cases cv with
  | null => simp [hb, hf, hft, hm, hc]
  | bool x => simp [hb, hf, hft, hm, hc]
  | num n => simp [hb, hf, hft, hm, hc]
  | str s => simp [hb, hf, hft, hm, hc]
  | obj cf => exact absurd rfl (hno cf)

theorem validateCreateBody_idCargo_missing (b f : JVal) (cf : List (String × JVal))
    (hb : JVal.truthy b = true) (hf : jlookup b ("funcionario") = some f)
    (hft : JVal.truthy f = true)
    (hm : firstCampoMissing f camposObrigatoriosCreate = none)
    (hc : jlookup f ("cargo") = some (JVal.obj cf))
    (hnum : ∀ n : Int, jlookup (JVal.obj cf) ("idCargo") ≠ some (JVal.num n)) :
    FuncionarioMiddleware.validateCreateBody (some b)
      = Except.error (validationError
          ("O campo \x27idCargo\x27 deve ser um número inteiro positivo")) := by
  rw [FuncionarioMiddleware.validateCreateBody]
  cases hi : jlookup (JVal.obj cf) ("idCargo") with
  | none => simp [hb, hf, hft, hm, hc, hi]
  | some v =>
    cases v with
    | null => simp [hb, hf, hft, hm, hc, hi]
    | bool x => simp [hb, hf, hft, hm, hc, hi]
    | num n => exact absurd hi (hnum n)
    | str s => simp [hb, hf, hft, hm, hc, hi]
    | obj g => simp [hb, hf, hft, hm, hc, hi]

theorem validateCreateBody_idCargo_nonpos (b f : JVal) (cf : List (String × JVal))
    (n : Int)
    (hb : JVal.truthy b = true) (hf : jlookup b ("funcionario") = some f)
    (hft : JVal.truthy f = true)
    (hm : firstCampoMissing f camposObrigatoriosCreate = none)
    (hc : jlookup f ("cargo") = some (JVal.obj cf))
    (hi : jlookup (JVal.obj cf) ("idCargo") = some (JVal.num n)) (hn : n ≤ 0) :
    FuncionarioMiddleware.validateCreateBody (some b)
      = Except.error (validationError
          ("O campo \x27idCargo\x27 deve ser um número inteiro positivo")) := by
  rw [FuncionarioMiddleware.validateCreateBody]
  simp [hb, hf, hft, hm, hc, hi, hn]

theorem validateCreateBody_passes (b f : JVal) (cf : List (String × JVal)) (n : Int)
    (hb : JVal.truthy b = true) (hf : jlookup b ("funcionario") = some f)
    (hft : JVal.truthy f = true)
    (hm : firstCampoMissing f camposObrigatoriosCreate = none)
    (hc : jlookup f ("cargo") = some (JVal.obj cf))
    (hi : jlookup (JVal.obj cf) ("idCargo") = some (JVal.num n)) (hn : 0 < n) :
    FuncionarioMiddleware.validateCreateBody (some b) = Except.ok () := by
  rw [FuncionarioMiddleware.validateCreateBody]
  have hn2 : ¬ n ≤ 0 := by omega
  simp [hb, hf, hft, hm, hc, hi, hn2]

theorem pipeline_blocked (db : DB) (body : Option JVal) (e : ErrorResponse)
    (service : DB → JVal → (Except Failure Funcionario) × DB)
    (h : FuncionarioMiddleware.validateCreateBody body = Except.error e) :
    runCreatePipeline db body service = (Except.error (Failure.response e), db) := by
  simp [runCreatePipeline, h]

/-- Claim C8: the create-shape validation fails with the 400 validation
error naming the offending field whenever the `funcionario` container is
missing (body absent, body falsy, property absent or falsy) or a required
field of {nomeFuncionario, email, senha, usuario, cargo} is absent, null
or the empty string (the loop reports the first such field, and some field
is always reported when one is offending); `cargo` must additionally be an
object whose `idCargo` is a positive integer, or validation fails; and on
any validation error the workflow service is never invoked — the pipeline
returns the middleware error with the state untouched, whatever service
stage is plugged in. -/
theorem validateCreateBody_shape :
    (FuncionarioMiddleware.validateCreateBody none
      = Except.error (validationError (campoObrigatorioMsg ("funcionario"))))
    ∧ (∀ b : JVal, JVal.truthy b = false →
      FuncionarioMiddleware.validateCreateBody (some b)
        = Except.error (validationError (campoObrigatorioMsg ("funcionario"))))
    ∧ (∀ b : JVal, JVal.truthy b = true → jlookup b ("funcionario") = none →
      FuncionarioMiddleware.validateCreateBody (some b)
        = Except.error (validationError (campoObrigatorioMsg ("funcionario"))))
    ∧ (∀ b f : JVal, JVal.truthy b = true → jlookup b ("funcionario") = some f →
      JVal.truthy f = false →
      FuncionarioMiddleware.validateCreateBody (some b)
        = Except.error (validationError (campoObrigatorioMsg ("funcionario"))))
    ∧ (∀ b f : JVal, ∀ campo : String,
      JVal.truthy b = true → jlookup b ("funcionario") = some f →
      JVal.truthy f = true →
      firstCampoMissing f camposObrigatoriosCreate = some campo →
      campo ∈ camposObrigatoriosCreate
      ∧ campoMissing (jlookup f campo) = true
      ∧ FuncionarioMiddleware.validateCreateBody (some b)
          = Except.error (validationError (campoObrigatorioMsg campo)))
    ∧ (∀ f : JVal,
      (∃ c ∈ camposObrigatoriosCreate, campoMissing (jlookup f c) = true) →
      firstCampoMissing f camposObrigatoriosCreate ≠ none)
    ∧ (∀ b f cv : JVal, JVal.truthy b = true → jlookup b ("funcionario") = some f →
      JVal.truthy f = true →
      firstCampoMissing f camposObrigatoriosCreate = none →
      jlookup f ("cargo") = some cv → (∀ cf : List (String × JVal), cv ≠ JVal.obj cf) →
      FuncionarioMiddleware.validateCreateBody (some b)
        = Except.error (validationError ("O campo \x27cargo\x27 deve ser um objeto")))
    ∧ (∀ b f : JVal, ∀ cf : List (String × JVal),
      JVal.truthy b = true → jlookup b ("funcionario") = some f →
      JVal.truthy f = true →
      firstCampoMissing f camposObrigatoriosCreate = none →
      jlookup f ("cargo") = some (JVal.obj cf) →
      (∀ n : Int, jlookup (JVal.obj cf) ("idCargo") ≠ some (JVal.num n)) →
      FuncionarioMiddleware.validateCreateBody (some b)
        = Except.error (validationError
            ("O campo \x27idCargo\x27 deve ser um número inteiro positivo")))
    ∧ (∀ b f : JVal, ∀ cf : List (String × JVal), ∀ n : Int,
      JVal.truthy b = true → jlookup b ("funcionario") = some f →
      JVal.truthy f = true →
      firstCampoMissing f camposObrigatoriosCreate = none →
      jlookup f ("cargo") = some (JVal.obj cf) →
      jlookup (JVal.obj cf) ("idCargo") = some (JVal.num n) → n ≤ 0 →
      FuncionarioMiddleware.validateCreateBody (some b)
        = Except.error (validationError
            ("O campo \x27idCargo\x27 deve ser um número inteiro positivo")))
    ∧ (∀ b f : JVal, ∀ cf : List (String × JVal), ∀ n : Int,
      JVal.truthy b = true → jlookup b ("funcionario") = some f →
      JVal.truthy f = true →
      firstCampoMissing f camposObrigatoriosCreate = none →
      jlookup f ("cargo") = some (JVal.obj cf) →
      jlookup (JVal.obj cf) ("idCargo") = some (JVal.num n) → 0 < n →
      FuncionarioMiddleware.validateCreateBody (some b) = Except.ok ())
    ∧ (∀ (db : DB) (body : Option JVal) (e : ErrorResponse)
        (service : DB → JVal → (Except Failure Funcionario) × DB),
      FuncionarioMiddleware.validateCreateBody body = Except.error e →
      runCreatePipeline db body service = (Except.error (Failure.response e), db)) :=
  ⟨validateCreateBody_none,
   validateCreateBody_falsy_body,
   validateCreateBody_no_container,
   validateCreateBody_falsy_container,
   fun b f campo hb hf hft hm =>
     ⟨(firstCampoMissing_is_missing f camposObrigatoriosCreate campo hm).1,
      (firstCampoMissing_is_missing f camposObrigatoriosCreate campo hm).2,
      validateCreateBody_campo_missing b f campo hb hf hft hm⟩,
   fun f h => firstCampoMissing_of_exists f camposObrigatoriosCreate h,
   validateCreateBody_cargo_not_obj,
   validateCreateBody_idCargo_missing,
   validateCreateBody_idCargo_nonpos,
   validateCreateBody_passes,
   pipeline_blocked⟩

/-- The `funcionario` container of a create request with no `senha`
field. -/
def funcNoSenha : JVal :=
  JVal.obj
    [(("nomeFuncionario"), JVal.str ("Ana")),
     (("email"), JVal.str ("ana@x.com")),
     (("usuario"), JVal.str ("ana1")),
     (("cargo"), JVal.obj [(("idCargo"), JVal.num 1)])]

/-- A create request body whose container is missing the `senha` field. -/
def bodyNoSenha : JVal := JVal.obj [(("funcionario"), funcNoSenha)]

/-- Witness for C8: the body missing `senha` is rejected with the 400
validation error naming `senha`, and the pipeline never reaches the
service: for an arbitrary service stage it returns the middleware error
with the state untouched. -/
theorem validateCreateBody_shape_witness :
    ("senha" ∈ camposObrigatoriosCreate
      ∧ campoMissing (jlookup funcNoSenha ("senha")) = true
      ∧ FuncionarioMiddleware.validateCreateBody (some bodyNoSenha)
          = Except.error (validationError (campoObrigatorioMsg ("senha"))))
    ∧ runCreatePipeline dbW (some bodyNoSenha)
        (fun db _ => (Except.error (Failure.jsError ("service ran")), db))
      = (Except.error (Failure.response
          (validationError (campoObrigatorioMsg ("senha")))), dbW) :=
  ⟨validateCreateBody_shape.2.2.2.2.1 bodyNoSenha funcNoSenha ("senha")
      rfl rfl rfl rfl,
   validateCreateBody_shape.2.2.2.2.2.2.2.2.2.2 dbW (some bodyNoSenha)
      (validationError (campoObrigatorioMsg ("senha")))
      (fun db _ => (Except.error (Failure.jsError ("service ran")), db)) rfl⟩

end Portal
